import Mathlib

/-!
# K8sWorkflowExecutor (flyteadmin/pkg/workflowengine/impl/k8s_executor.go)

A shallow embedding of `K8sWorkflowExecutor.Execute` and `K8sWorkflowExecutor.Abort`.

* Go pointers that the executor receives inside its request are `Option`s; reading a field
  through a nil pointer makes the run end in `Outcome.panicked`.
* The collaborators (workflow builder, cluster interface, the per-cluster FlyteWorkflow
  client, the event writer, the clock) are arbitrary functions over an abstract world `σ`;
  every call made to them is appended, with its result, to the trace of the run.
* `logger` calls leave no trace, but their arguments are evaluated (Go evaluates call
  arguments eagerly), which is where `Execute` can panic on a build failure.
-/

namespace K8sExecutor

/-! ## Errors -/

/-- The gRPC status code (`codes.Code`, an unsigned integer). -/
abbrev Code := Nat

/-- The value of `codes.Internal`. -/
def codes.Internal : Code := 13

/-- A Go `error` value, described by what the executor and its caller can observe of it:
`err.Error()`, `k8apierr.IsAlreadyExists(err)`, `k8apierr.IsNotFound(err)` and, for a
`FlyteAdminError`, its status code. -/
structure GoError where
  Error : String
  IsAlreadyExists : Bool
  IsNotFound : Bool
  Code : Option Code
deriving DecidableEq, Repr

/-- Modelled from the spec: `errors.NewFlyteAdminErrorf` (flyteadmin/pkg/errors) is not part of
the given sources. The spec describes its results as errors "wrapped as an internal error" with
"the underlying cause attached": the value carries the status code it was built with and the
formatted message; it is not a Kubernetes API status error. The argument `message` is the
already formatted text `fmt.Sprintf(format, args...)`. -/
def NewFlyteAdminErrorf (code : Code) (message : String) : GoError :=
  { Error := message, IsAlreadyExists := false, IsNotFound := false, Code := some code }

/-! ## Data model -/

/-- The type `storage.DataReference`, a string. -/
abbrev DataReference := String

/-- The message `core.Identifier` (only read as a log argument). -/
structure Identifier where
  Project : String
  Domain : String
  Name : String
  Version : String
deriving DecidableEq, Repr

/-- The message `core.WorkflowTemplate`, restricted to the field the executor reads. -/
structure WorkflowTemplate where
  Id : Option Identifier
deriving DecidableEq, Repr

/-- The message `core.CompiledWorkflow`. -/
structure CompiledWorkflow where
  Template : Option WorkflowTemplate
deriving DecidableEq, Repr

/-- The message `core.CompiledWorkflowClosure`. -/
structure CompiledWorkflowClosure where
  Primary : Option CompiledWorkflow
deriving DecidableEq, Repr

/-- The message `core.WorkflowExecutionIdentifier`. -/
structure WorkflowExecutionIdentifier where
  Project : String
  Domain : String
  Name : String
deriving DecidableEq, Repr

/-- The nil-safe getter `(*WorkflowExecutionIdentifier).GetName`. -/
def WorkflowExecutionIdentifier.GetName : Option WorkflowExecutionIdentifier → String
  | none => ""
  | some x => x.Name

/-- The message `core.LiteralMap`; its content is never inspected by the executor. -/
structure LiteralMap where
  Literals : List (String × String)
deriving DecidableEq, Repr

/-- The message `admin.ExecutionClusterLabel`. -/
structure ExecutionClusterLabel where
  Value : String
deriving DecidableEq, Repr

/-- The fields of `interfaces.ExecutionParameters` the executor reads. -/
structure ExecutionParameters where
  Inputs : Option LiteralMap
  ExecutionClusterLabel : Option ExecutionClusterLabel
deriving DecidableEq, Repr

/-- The request `interfaces.ExecutionData`. -/
structure ExecutionData where
  Namespace : String
  ExecutionID : Option WorkflowExecutionIdentifier
  ReferenceWorkflowName : String
  ReferenceLaunchPlanName : String
  WorkflowClosure : Option CompiledWorkflowClosure
  WorkflowClosureReference : DataReference
  ExecutionParameters : ExecutionParameters
  OffloadedInputsReference : DataReference
deriving DecidableEq, Repr

/-- The request `interfaces.AbortData`. -/
structure AbortData where
  Namespace : String
  ExecutionID : Option WorkflowExecutionIdentifier
  Cluster : String
deriving DecidableEq, Repr

/-- The response `interfaces.ExecutionResponse`; its zero value has an empty cluster id. -/
structure ExecutionResponse where
  Cluster : String := ""
deriving DecidableEq, Repr

/-- A `v1alpha1.WorkflowSpec`; the executor only ever drops it. -/
structure WorkflowSpec where
  ID : String
deriving DecidableEq, Repr

/-- A `v1alpha1.TaskSpec`; the executor only ever drops it. -/
structure TaskSpec where
  ID : String
deriving DecidableEq, Repr

/-- The custom resource `v1alpha1.FlyteWorkflow`, restricted to the fields the executor
touches plus the object name. A nil pointer or nil map is `none`. -/
structure FlyteWorkflow where
  Name : String
  WorkflowSpec : Option WorkflowSpec
  SubWorkflows : Option (List (String × K8sExecutor.WorkflowSpec))
  Tasks : Option (List (String × TaskSpec))
  Inputs : Option LiteralMap
  WorkflowClosureReference : DataReference
  OffloadedInputs : DataReference
  ConsoleURL : String
deriving DecidableEq, Repr

/-- The routing request `executioncluster.ExecutionTargetSpec`. -/
structure ExecutionTargetSpec where
  TargetID : String := ""
  ExecutionID : String := ""
  Project : String := ""
  Domain : String := ""
  Workflow : String := ""
  LaunchPlan : String := ""
  ExecutionClusterLabel : Option ExecutionClusterLabel := none
deriving DecidableEq, Repr

/-- A handle on the client of one cluster (`ExecutionTarget.FlyteClient`). -/
abbrev ClientHandle := Nat

/-- The resolved cluster `executioncluster.ExecutionTarget`: its id and its client. -/
structure ExecutionTarget where
  ID : String
  FlyteClient : ClientHandle
deriving DecidableEq, Repr

/-- The values of `v1.DeletionPropagation`. -/
inductive DeletionPropagation where
  | Orphan
  | Background
  | Foreground
deriving DecidableEq, Repr

/-- The options `v1.DeleteOptions`, restricted to the propagation policy. -/
structure DeleteOptions where
  PropagationPolicy : Option DeletionPropagation
deriving DecidableEq, Repr

/-- The package variable `deletePropagationBackground`. -/
def deletePropagationBackground : DeletionPropagation := DeletionPropagation.Background

/-- The constant `defaultIdentifier`. -/
def defaultIdentifier : String := "DefaultK8sExecutor"

/-- The enumeration `core.WorkflowExecution_Phase`. -/
inductive WorkflowExecution_Phase where
  | UNDEFINED
  | QUEUED
  | RUNNING
  | SUCCEEDING
  | SUCCEEDED
  | FAILING
  | FAILED
  | ABORTED
  | TIMED_OUT
  | ABORTING
deriving DecidableEq, Repr

/-- The message `core.ExecutionError`, restricted to code and message. -/
structure ExecutionError where
  Code : String
  Message : String
deriving DecidableEq, Repr

/-- The oneof `event.WorkflowExecutionEvent.OutputResult`. -/
inductive OutputResult where
  | OutputUri (uri : String)
  | Error (err : ExecutionError)
  | OutputData (data : LiteralMap)
deriving DecidableEq, Repr

/-- A point in time as returned by `timestamppb.Now()`. -/
abbrev Timestamp := Nat

/-- The message `event.WorkflowExecutionEvent`. -/
structure WorkflowExecutionEvent where
  ExecutionId : Option WorkflowExecutionIdentifier
  ProducerId : String
  Phase : WorkflowExecution_Phase
  OccurredAt : Option Timestamp
  OutputResult : Option OutputResult
deriving DecidableEq, Repr

/-- The message `admin.WorkflowExecutionEventRequest`. -/
structure WorkflowExecutionEventRequest where
  Event : Option WorkflowExecutionEvent
deriving DecidableEq, Repr

/-- The part of `ApplicationConfig` (the top level configuration) the executor reads. -/
structure ApplicationConfig where
  UseOffloadedWorkflowClosure : Bool
  UseOffloadedInputs : Bool
  ConsoleURL : String
deriving DecidableEq, Repr

/-! ## Collaborators and runs -/

/-- The result of a call that returns a value or an error. -/
inductive Result (α : Type) where
  | ok (v : α)
  | err (e : GoError)
deriving DecidableEq, Repr

/-- One call to a collaborator, with its arguments and what it returned. -/
inductive Call where
  | Build (wfClosure : Option CompiledWorkflowClosure) (inputs : Option LiteralMap)
      (executionID : Option WorkflowExecutionIdentifier) (namespace_ : String)
      (res : Result FlyteWorkflow)
  | GetTarget (spec : ExecutionTargetSpec) (res : Result ExecutionTarget)
  | Create (client : ClientHandle) (namespace_ : String) (wf : FlyteWorkflow)
      (res : Option GoError)
  | Delete (client : ClientHandle) (namespace_ : String) (name : String)
      (opts : DeleteOptions) (res : Option GoError)
  | Write (req : WorkflowExecutionEventRequest)
deriving DecidableEq, Repr

/-- Whether the call is a `GetTarget`. -/
def Call.isGetTarget : Call → Bool
  | Call.GetTarget _ _ => true
  | _ => false

/-- Whether the call is a `Create`. -/
def Call.isCreate : Call → Bool
  | Call.Create _ _ _ _ => true
  | _ => false

/-- Whether the call is a `Delete`. -/
def Call.isDelete : Call → Bool
  | Call.Delete _ _ _ _ _ => true
  | _ => false

/-- Whether the call is a `Write` on the execution event writer. -/
def Call.isWrite : Call → Bool
  | Call.Write _ => true
  | _ => false

/-- How a Go function call ends: it returns, or a run-time panic unwinds it. -/
inductive Outcome (α : Type) where
  | returned (v : α)
  | panicked
deriving DecidableEq, Repr

/-- A finished run: how it ended, the world it left, and the collaborator calls it made,
in order. -/
structure Run (σ : Type) (α : Type) where
  outcome : Outcome α
  world : σ
  trace : List Call

/-- The interface `interfaces.FlyteWorkflowBuilder`. A successful `Build` returns a
non-nil object. -/
structure FlyteWorkflowBuilder (σ : Type) where
  Build : Option CompiledWorkflowClosure → Option LiteralMap →
    Option WorkflowExecutionIdentifier → String → σ → Result FlyteWorkflow × σ

/-- The interface `execClusterInterfaces.ClusterInterface`. A successful `GetTarget` returns
a non-nil target with a usable client. -/
structure ClusterInterface (σ : Type) where
  GetTarget : ExecutionTargetSpec → σ → Result ExecutionTarget × σ

/-- The interface `eventsInterfaces.WorkflowExecutionEventWriter`; `Write` returns nothing. -/
structure WorkflowExecutionEventWriter (σ : Type) where
  Write : WorkflowExecutionEventRequest → σ → σ

/-- The struct `K8sWorkflowExecutor`. The configuration is the immutable snapshot returned by
`config.ApplicationConfiguration().GetTopLevelConfig()`; the storage client is a handle that
neither `Execute` nor `Abort` uses. -/
structure K8sWorkflowExecutor (σ : Type) where
  config : ApplicationConfig
  executionCluster : ClusterInterface σ
  workflowBuilder : FlyteWorkflowBuilder σ
  storageClient : Nat
  executionEventWriter : WorkflowExecutionEventWriter σ

/-- What the executor uses from outside its own struct: the FlyteWorkflow client of each
cluster (`client.FlyteworkflowV1alpha1().FlyteWorkflows(ns)`), the package function
`PrepareFlyteWorkflow` (it fills in the object it is given and may fail), the clock, and
two pieces of `fmt` formatting whose exact text no property depends on. -/
structure Runtime (σ : Type) where
  Create : ClientHandle → String → FlyteWorkflow → σ → Option GoError × σ
  Delete : ClientHandle → String → String → DeleteOptions → σ → Option GoError × σ
  PrepareFlyteWorkflow : ExecutionData → FlyteWorkflow → Result FlyteWorkflow
  Now : σ → Timestamp
  SprintfNoArgs : String → String
  FormatExecutionID : Option WorkflowExecutionIdentifier → String

/-- The method `K8sWorkflowExecutor.ID`. -/
def ID {σ : Type} (_e : K8sWorkflowExecutor σ) : String := defaultIdentifier

/-! ## The executor -/

/-- The log argument `data.WorkflowClosure.Primary.Template.Id` of the build-failure branch
of `Execute` (k8s_executor.go:44-45). The three field reads go through plain pointers, so the
expression has a value only when closure, primary workflow and template are all non-nil;
`none` stands for the nil-pointer panic. The `Id` itself may be nil. -/
def buildFailureLogArg (data : ExecutionData) : Option (Option Identifier) :=
  match data.WorkflowClosure with
  | none => none
  | some closure =>
    match closure.Primary with
    | none => none
    | some primary =>
      match primary.Template with
      | none => none
      | some template => some template.Id

/-- Lines 53-69 of `Execute`: with closure offloading on, the closure reference is set and
the static closure fields are dropped; with inputs offloading on, the inputs reference is
set and the inline inputs are dropped; a non-empty configured console URL is written. -/
def reducePayload (cfg : ApplicationConfig) (data : ExecutionData) (flyteWf : FlyteWorkflow) :
    FlyteWorkflow :=
  let wf1 : FlyteWorkflow :=
    if cfg.UseOffloadedWorkflowClosure then
      { flyteWf with
        WorkflowClosureReference := data.WorkflowClosureReference
        WorkflowSpec := none
        SubWorkflows := none
        Tasks := none }
    else flyteWf
  let wf2 : FlyteWorkflow :=
    if cfg.UseOffloadedInputs then
      { wf1 with OffloadedInputs := data.OffloadedInputsReference, Inputs := none }
    else wf1
  if cfg.ConsoleURL.length > 0 then { wf2 with ConsoleURL := cfg.ConsoleURL } else wf2

/-- The `executionTargetSpec` literal of `Execute` (lines 71-78), given the identifier that
`data.ExecutionID` points to. -/
def executionTargetSpec (data : ExecutionData) (executionID : WorkflowExecutionIdentifier) :
    ExecutionTargetSpec :=
  { Project := executionID.Project
    Domain := executionID.Domain
    Workflow := data.ReferenceWorkflowName
    LaunchPlan := data.ReferenceWorkflowName
    ExecutionID := executionID.Name
    ExecutionClusterLabel := data.ExecutionParameters.ExecutionClusterLabel }

/-- The method `K8sWorkflowExecutor.Execute` (k8s_executor.go:41-93). -/
def Execute {σ : Type} (e : K8sWorkflowExecutor σ) (rt : Runtime σ) (data : ExecutionData)
    (w : σ) : Run σ (ExecutionResponse × Option GoError) :=
  let built := e.workflowBuilder.Build data.WorkflowClosure data.ExecutionParameters.Inputs
    data.ExecutionID data.Namespace w
  let t1 : List Call := [Call.Build data.WorkflowClosure data.ExecutionParameters.Inputs
    data.ExecutionID data.Namespace built.1]
  match built.1 with
  | Result.err err =>
    -- logger.Infof(ctx, "...", data.WorkflowClosure.Primary.Template.Id, err)
    match buildFailureLogArg data with
    | none => { outcome := Outcome.panicked, world := built.2, trace := t1 }
    | some _ => { outcome := Outcome.returned ({}, some err), world := built.2, trace := t1 }
  | Result.ok flyteWf0 =>
    match rt.PrepareFlyteWorkflow data flyteWf0 with
    | Result.err err =>
      { outcome := Outcome.returned ({}, some err), world := built.2, trace := t1 }
    | Result.ok prepared =>
      let flyteWf := reducePayload e.config data prepared
      -- Project: data.ExecutionID.Project, ... reads through the pointer data.ExecutionID
      match data.ExecutionID with
      | none => { outcome := Outcome.panicked, world := built.2, trace := t1 }
      | some executionID =>
        let spec := executionTargetSpec data executionID
        let resolved := e.executionCluster.GetTarget spec built.2
        let t2 := t1 ++ [Call.GetTarget spec resolved.1]
        match resolved.1 with
        | Result.err err =>
          { outcome := Outcome.returned ({}, some (NewFlyteAdminErrorf codes.Internal
              ("failed to create workflow in propeller " ++ err.Error)))
            world := resolved.2
            trace := t2 }
        | Result.ok targetCluster =>
          let created := rt.Create targetCluster.FlyteClient data.Namespace flyteWf resolved.2
          let t3 := t2 ++ [Call.Create targetCluster.FlyteClient data.Namespace flyteWf
            created.1]
          match created.1 with
          | some err =>
            if !err.IsAlreadyExists then
              { outcome := Outcome.returned ({}, some (NewFlyteAdminErrorf codes.Internal
                  ("failed to create workflow in propeller " ++ err.Error)))
                world := created.2
                trace := t3 }
            else
              { outcome := Outcome.returned ({ Cluster := targetCluster.ID }, none)
                world := created.2
                trace := t3 }
          | none =>
            { outcome := Outcome.returned ({ Cluster := targetCluster.ID }, none)
              world := created.2
              trace := t3 }

/-- The event request `Abort` builds for the writer (lines 110-127), given the identifier
that `data.ExecutionID` points to and the current time. -/
def abortEventRequest (executionID : WorkflowExecutionIdentifier) (now : Timestamp) :
    WorkflowExecutionEventRequest :=
  { Event := some
      { ExecutionId := some
          { Project := executionID.Project
            Domain := executionID.Domain
            Name := executionID.Name }
        Phase := WorkflowExecution_Phase.ABORTED
        ProducerId := "k8s_executor"
        OccurredAt := some now
        OutputResult := some (OutputResult.Error
          { Code := "ExecutionAborted", Message := "Execution aborted" }) } }

/-- Lines 110-128 of `Abort`: the event request is built (reading the execution identifier
through `data.ExecutionID`, then the clock), handed to the writer, and `nil` is returned. -/
def emitAborted {σ : Type} (e : K8sWorkflowExecutor σ) (rt : Runtime σ) (data : AbortData)
    (w : σ) (t : List Call) : Run σ (Option GoError) :=
  -- Project: data.ExecutionID.Project, ... reads through the pointer data.ExecutionID
  match data.ExecutionID with
  | none => { outcome := Outcome.panicked, world := w, trace := t }
  | some executionID =>
    let req := abortEventRequest executionID (rt.Now w)
    { outcome := Outcome.returned none
      world := e.executionEventWriter.Write req w
      trace := t ++ [Call.Write req] }

/-- The method `K8sWorkflowExecutor.Abort` (k8s_executor.go:95-129). -/
def Abort {σ : Type} (e : K8sWorkflowExecutor σ) (rt : Runtime σ) (data : AbortData)
    (w : σ) : Run σ (Option GoError) :=
  let spec : ExecutionTargetSpec := { TargetID := data.Cluster }
  let resolved := e.executionCluster.GetTarget spec w
  let t1 : List Call := [Call.GetTarget spec resolved.1]
  match resolved.1 with
  | Result.err err =>
    { outcome := Outcome.returned
        (some (NewFlyteAdminErrorf codes.Internal (rt.SprintfNoArgs err.Error)))
      world := resolved.2
      trace := t1 }
  | Result.ok target =>
    let name := WorkflowExecutionIdentifier.GetName data.ExecutionID
    let opts : DeleteOptions := { PropagationPolicy := some deletePropagationBackground }
    let deleted := rt.Delete target.FlyteClient data.Namespace name opts resolved.2
    let t2 := t1 ++ [Call.Delete target.FlyteClient data.Namespace name opts deleted.1]
    match deleted.1 with
    | some err =>
      -- An IsNotFound error indicates the resource is already deleted.
      if !err.IsNotFound then
        { outcome := Outcome.returned (some (NewFlyteAdminErrorf codes.Internal
            ("failed to terminate execution: " ++ rt.FormatExecutionID data.ExecutionID
              ++ " with err " ++ err.Error)))
          world := deleted.2
          trace := t2 }
      else emitAborted e rt data deleted.2 t2
    | none => emitAborted e rt data deleted.2 t2

/-! ## Concrete collaborators used to evaluate the executor -/

/-- A test double for the cluster clients. The world is the list of object names the
cluster holds. With a `fault` every call fails with it; otherwise `Create` stores the name
or reports "already exists", and `Delete` removes the name or reports "not found".
`PrepareFlyteWorkflow` leaves the object as it is. -/
def storeRuntime (fault : Option GoError) : Runtime (List String) :=
  { Create := fun _ _ wf w =>
      match fault with
      | some err => (some err, w)
      | none =>
        if wf.Name ∈ w then
          (some { Error := "already exists", IsAlreadyExists := true, IsNotFound := false
                  Code := none }, w)
        else (none, wf.Name :: w)
    Delete := fun _ _ name _ w =>
      match fault with
      | some err => (some err, w)
      | none =>
        if name ∈ w then (none, w.erase name)
        else
          (some { Error := "not found", IsAlreadyExists := false, IsNotFound := true
                  Code := none }, w)
    PrepareFlyteWorkflow := fun _ wf => Result.ok wf
    Now := fun w => w.length
    SprintfNoArgs := fun s => s
    FormatExecutionID := fun
      | none => "<nil>"
      | some x => x.Project ++ "/" ++ x.Domain ++ "/" ++ x.Name }

/-- An executor whose builder answers `built` and whose cluster interface answers
`resolved`, with the given configuration. -/
def sampleExecutor (cfg : ApplicationConfig) (built : Result FlyteWorkflow)
    (resolved : Result ExecutionTarget) : K8sWorkflowExecutor (List String) :=
  { config := cfg
    executionCluster := { GetTarget := fun _ w => (resolved, w) }
    workflowBuilder := { Build := fun _ _ _ _ w => (built, w) }
    storageClient := 0
    executionEventWriter := { Write := fun _ w => w } }

/-- A configuration with both offload flags off and no console URL. -/
def plainConfig : ApplicationConfig :=
  { UseOffloadedWorkflowClosure := false, UseOffloadedInputs := false, ConsoleURL := "" }

/-- The cluster `cluster-1`. -/
def cluster1 : ExecutionTarget := { ID := "cluster-1", FlyteClient := 1 }

/-- The execution identifier p/d/e1. -/
def sampleID : WorkflowExecutionIdentifier := { Project := "p", Domain := "d", Name := "e1" }

/-- A compiled closure whose primary workflow has a template. -/
def sampleClosure : CompiledWorkflowClosure :=
  { Primary := some { Template := some { Id := none } } }

/-- An execution request for p/d/e1 with the given closure. -/
def sampleData (closure : Option CompiledWorkflowClosure) : ExecutionData :=
  { Namespace := "p-d"
    ExecutionID := some sampleID
    ReferenceWorkflowName := "wf"
    ReferenceLaunchPlanName := "lp"
    WorkflowClosure := closure
    WorkflowClosureReference := "ref://p/d/e1/closure"
    ExecutionParameters := { Inputs := none, ExecutionClusterLabel := none }
    OffloadedInputsReference := "ref://p/d/e1/inputs" }

/-- An abort request for p/d/e1 on `cluster-1`. -/
def sampleAbort : AbortData :=
  { Namespace := "p-d", ExecutionID := some sampleID, Cluster := "cluster-1" }

/-- An object as a builder produces it: inline closure and inputs, no references. -/
def sampleWorkflow : FlyteWorkflow :=
  { Name := "e1"
    WorkflowSpec := some { ID := "wf" }
    SubWorkflows := some []
    Tasks := some [("t1", { ID := "t1" })]
    Inputs := some { Literals := [] }
    WorkflowClosureReference := ""
    OffloadedInputs := ""
    ConsoleURL := "" }

/-- Some other error. -/
def errOther : GoError :=
  { Error := "connection refused", IsAlreadyExists := false, IsNotFound := false
    Code := none }

/-! ## Properties of execution objects -/

/-- The closure half of the mutual-exclusivity invariant: a non-empty closure reference
implies that the workflow spec, the sub-workflows and the tasks are all nil. -/
def closureExclusive (wf : FlyteWorkflow) : Prop :=
  wf.WorkflowClosureReference ≠ "" →
    wf.WorkflowSpec = none ∧ wf.SubWorkflows = none ∧ wf.Tasks = none

/-- The inputs half of the mutual-exclusivity invariant: a non-empty inputs reference
implies that the inline inputs are nil. -/
def inputsExclusive (wf : FlyteWorkflow) : Prop :=
  wf.OffloadedInputs ≠ "" → wf.Inputs = none

/-- An object that carries a closure reference next to its inline closure. -/
def staleReferenceWorkflow : FlyteWorkflow :=
  { Name := "e1"
    WorkflowSpec := some { ID := "wf" }
    SubWorkflows := none
    Tasks := none
    Inputs := none
    WorkflowClosureReference := "ref://p/d/e0/closure"
    OffloadedInputs := ""
    ConsoleURL := "" }

/-- A configuration with closure offloading on, inputs offloading off and a console URL. -/
def offloadConfig : ApplicationConfig :=
  { UseOffloadedWorkflowClosure := true, UseOffloadedInputs := false
    ConsoleURL := "https://console.example" }

/-- The clients on which the `Delete` calls of a trace were issued, in order. -/
def deleteClients (t : List Call) : List ClientHandle :=
  t.filterMap fun c =>
    match c with
    | Call.Delete client _ _ _ _ => some client
    | _ => none

/-- A `Create` result that `Execute` accepts: no error, or an "already exists" error. -/
def createAccepted (res : Option GoError) : Bool :=
  match res with
  | none => true
  | some err => err.IsAlreadyExists

/-! ## Helper lemmas -/

/-- Helper: a string has positive length exactly when it is not the empty string. -/
theorem length_pos_iff_ne_empty (s : String) : s.length > 0 ↔ s ≠ "" := by
  cases s with
  | mk d =>
    cases d with
    | nil => simp [String.length]
    | cons c cs =>
      simp [String.length]
      intro h
      have h2 := congrArg String.data h
      simp at h2

/-- Helper: a run of `Execute` in which `GetTarget` resolved a cluster and the `Create` it
issued was accepted returns that cluster's id and a nil error. -/
theorem Execute_accepted {σ : Type} (e : K8sWorkflowExecutor σ) (rt : Runtime σ)
    (data : ExecutionData) (w : σ) (spec : ExecutionTargetSpec) (target : ExecutionTarget)
    (client : ClientHandle) (ns : String) (wf : FlyteWorkflow) (res : Option GoError)
    (hT : Call.GetTarget spec (Result.ok target) ∈ (Execute e rt data w).trace)
    (hC : Call.Create client ns wf res ∈ (Execute e rt data w).trace)
    (hA : createAccepted res = true) :
    (Execute e rt data w).outcome = Outcome.returned ({ Cluster := target.ID }, none) := by
  unfold Execute at *
  dsimp only at *
  repeat' split at hC
  all_goals simp at hC
  all_goals simp_all [createAccepted]

/-- Helper: the only `Build` call in a run of `Execute` is the first call, made on the
fields of the request in the initial world. -/
theorem Execute_build_call {σ : Type} (e : K8sWorkflowExecutor σ) (rt : Runtime σ)
    (data : ExecutionData) (w : σ) (closure : Option CompiledWorkflowClosure)
    (inputs : Option LiteralMap) (executionID : Option WorkflowExecutionIdentifier)
    (ns : String) (res : Result FlyteWorkflow)
    (hB : Call.Build closure inputs executionID ns res ∈ (Execute e rt data w).trace) :
    (e.workflowBuilder.Build data.WorkflowClosure data.ExecutionParameters.Inputs
      data.ExecutionID data.Namespace w).1 = res := by
  unfold Execute at hB
  dsimp only at hB
  repeat' split at hB
  all_goals simp at hB
  all_goals simp_all

/-- Helper: in a run of `Execute` that reaches `Create`, the submitted object is the reduced
form of the object `PrepareFlyteWorkflow` returned for the built one. -/
theorem Execute_submits_reduced {σ : Type} (e : K8sWorkflowExecutor σ) (rt : Runtime σ)
    (data : ExecutionData) (w : σ) (closure : Option CompiledWorkflowClosure)
    (inputs : Option LiteralMap) (executionID : Option WorkflowExecutionIdentifier)
    (nsB : String) (built prepared : FlyteWorkflow) (client : ClientHandle) (ns : String)
    (wf : FlyteWorkflow) (res : Option GoError)
    (hB : Call.Build closure inputs executionID nsB (Result.ok built)
      ∈ (Execute e rt data w).trace)
    (hP : rt.PrepareFlyteWorkflow data built = Result.ok prepared)
    (hC : Call.Create client ns wf res ∈ (Execute e rt data w).trace) :
    wf = reducePayload e.config data prepared := by
  have hb := Execute_build_call e rt data w closure inputs executionID nsB _ hB
  unfold Execute at hC
  simp only [hb, hP] at hC
  repeat' split at hC
  all_goals simp at hC
  all_goals simp_all

/-! ## Theorems -/

/-- C1 (Idempotent submission): in a run of `Execute` where `GetTarget` resolved `target`
(so `Build` and `PrepareFlyteWorkflow` succeeded before) and `Create` failed with an
"already exists" error, `Execute` returns `ExecutionResponse{Cluster: target.ID}` with a nil
error. Any other run for the same request (from any world `w2`) that resolves a cluster with
the same id and whose `Create` succeeds or again reports "already exists" returns exactly
the same response. -/
theorem execute_already_exists_is_success {σ : Type} (e : K8sWorkflowExecutor σ)
    (rt : Runtime σ) (data : ExecutionData) (w : σ) (spec : ExecutionTargetSpec)
    (target : ExecutionTarget) (client : ClientHandle) (ns : String) (wf : FlyteWorkflow)
    (err : GoError)
    (hT : Call.GetTarget spec (Result.ok target) ∈ (Execute e rt data w).trace)
    (hC : Call.Create client ns wf (some err) ∈ (Execute e rt data w).trace)
    (hE : err.IsAlreadyExists = true) :
    (Execute e rt data w).outcome = Outcome.returned ({ Cluster := target.ID }, none) ∧
      ∀ (w2 : σ) (spec2 : ExecutionTargetSpec) (target2 : ExecutionTarget)
        (client2 : ClientHandle) (ns2 : String) (wf2 : FlyteWorkflow)
        (res2 : Option GoError),
        Call.GetTarget spec2 (Result.ok target2) ∈ (Execute e rt data w2).trace →
        Call.Create client2 ns2 wf2 res2 ∈ (Execute e rt data w2).trace →
        (res2 = none ∨ ∃ err2, res2 = some err2 ∧ err2.IsAlreadyExists = true) →
        target2.ID = target.ID →
        (Execute e rt data w2).outcome = (Execute e rt data w).outcome := by
  have h1 := Execute_accepted e rt data w spec target client ns wf (some err) hT hC
    (by simp [createAccepted, hE])
  refine ⟨h1, ?_⟩
  intro w2 spec2 target2 client2 ns2 wf2 res2 hT2 hC2 hR hID
  have hA : createAccepted res2 = true := by
    rcases hR with hR | ⟨err2, hR, hE2⟩
    · simp [hR, createAccepted]
    · simp [hR, createAccepted, hE2]
  rw [h1, ← hID]
  exact Execute_accepted e rt data w2 spec2 target2 client2 ns2 wf2 res2 hT2 hC2 hA

/-- Witness for C1: the request p/d/e1 is submitted to `cluster-1`, which already holds
`e1`; it is then submitted again in the world the first submission left. Both answer
`cluster-1`. -/
theorem execute_already_exists_is_success_witness :
    (Execute (sampleExecutor plainConfig (Result.ok sampleWorkflow) (Result.ok cluster1))
        (storeRuntime none) (sampleData (some sampleClosure)) ["e1"]).outcome
      = Outcome.returned ({ Cluster := "cluster-1" }, none) ∧
    (Execute (sampleExecutor plainConfig (Result.ok sampleWorkflow) (Result.ok cluster1))
        (storeRuntime none) (sampleData (some sampleClosure))
        (Execute (sampleExecutor plainConfig (Result.ok sampleWorkflow) (Result.ok cluster1))
          (storeRuntime none) (sampleData (some sampleClosure)) ["e1"]).world).outcome
      = (Execute (sampleExecutor plainConfig (Result.ok sampleWorkflow) (Result.ok cluster1))
        (storeRuntime none) (sampleData (some sampleClosure)) ["e1"]).outcome := by
  have h := execute_already_exists_is_success
    (sampleExecutor plainConfig (Result.ok sampleWorkflow) (Result.ok cluster1))
    (storeRuntime none) (sampleData (some sampleClosure)) ["e1"]
    (executionTargetSpec (sampleData (some sampleClosure)) sampleID) cluster1 1 "p-d"
    sampleWorkflow
    { Error := "already exists", IsAlreadyExists := true, IsNotFound := false, Code := none }
    (by decide) (by decide) (by decide)
  exact ⟨h.1, h.2 _ (executionTargetSpec (sampleData (some sampleClosure)) sampleID)
    cluster1 1 "p-d" sampleWorkflow
    (some { Error := "already exists", IsAlreadyExists := true, IsNotFound := false
            Code := none })
    (by decide) (by decide) (Or.inr ⟨_, rfl, by decide⟩) rfl⟩

/-- C2 (Abort failure withholds event): whenever the cluster id of the `Abort` resolved and
the `Delete` it issued failed with an error that is not "not found", `Abort` returns a
non-nil error (Internal-coded) and the run contains no `Write`. -/
theorem abort_delete_failure_withholds_event {σ : Type} (e : K8sWorkflowExecutor σ)
    (rt : Runtime σ) (data : AbortData) (w : σ) (spec : ExecutionTargetSpec)
    (target : ExecutionTarget) (client : ClientHandle) (ns name : String)
    (opts : DeleteOptions) (err : GoError)
    (_hT : Call.GetTarget spec (Result.ok target) ∈ (Abort e rt data w).trace)
    (hD : Call.Delete client ns name opts (some err) ∈ (Abort e rt data w).trace)
    (hNF : err.IsNotFound = false) :
    (∃ gerr : GoError, (Abort e rt data w).outcome = Outcome.returned (some gerr) ∧
        gerr.Code = some codes.Internal) ∧
      (Abort e rt data w).trace.countP Call.isWrite = 0 := by
  unfold Abort emitAborted at *
  dsimp only at *
  repeat' split at hD
  all_goals simp at hD
  all_goals simp_all [NewFlyteAdminErrorf, Call.isWrite, List.countP_cons]

/-- Witness for C2: aborting p/d/e1 on `cluster-1` while every client call fails with
"connection refused". -/
theorem abort_delete_failure_withholds_event_witness :
    (∃ gerr : GoError,
        (Abort (sampleExecutor plainConfig (Result.ok sampleWorkflow) (Result.ok cluster1))
          (storeRuntime (some errOther)) sampleAbort ["e1"]).outcome
          = Outcome.returned (some gerr) ∧ gerr.Code = some codes.Internal) ∧
      (Abort (sampleExecutor plainConfig (Result.ok sampleWorkflow) (Result.ok cluster1))
        (storeRuntime (some errOther)) sampleAbort ["e1"]).trace.countP Call.isWrite = 0 :=
  abort_delete_failure_withholds_event
    (sampleExecutor plainConfig (Result.ok sampleWorkflow) (Result.ok cluster1))
    (storeRuntime (some errOther)) sampleAbort ["e1"] { TargetID := "cluster-1" } cluster1 1
    "p-d" "e1" { PropagationPolicy := some DeletionPropagation.Background } errOther
    (by decide) (by decide) (by decide)

/-- C3 (Abort tolerance): in a run of `Abort` where the cluster id resolved and the `Delete`
succeeded or failed with "not found": when the request carries an execution identifier,
`Abort` returns nil and the run contains exactly one `Write`; when `data.ExecutionID` is
nil, building the event reads `data.ExecutionID.Project` through the nil pointer, so `Abort`
panics after the delete and the run contains no `Write`. -/
theorem abort_tolerated_delete {σ : Type} (e : K8sWorkflowExecutor σ) (rt : Runtime σ)
    (data : AbortData) (w : σ) (spec : ExecutionTargetSpec) (target : ExecutionTarget)
    (client : ClientHandle) (ns name : String) (opts : DeleteOptions)
    (res : Option GoError)
    (_hT : Call.GetTarget spec (Result.ok target) ∈ (Abort e rt data w).trace)
    (hD : Call.Delete client ns name opts res ∈ (Abort e rt data w).trace)
    (hR : res = none ∨ ∃ err, res = some err ∧ err.IsNotFound = true) :
    (∀ executionID, data.ExecutionID = some executionID →
        (Abort e rt data w).outcome = Outcome.returned none ∧
        (Abort e rt data w).trace.countP Call.isWrite = 1) ∧
      (data.ExecutionID = none →
        (Abort e rt data w).outcome = Outcome.panicked ∧
        (Abort e rt data w).trace.countP Call.isWrite = 0) := by
  unfold Abort emitAborted at *
  dsimp only at *
  constructor
  · intro executionID hid
    simp only [hid] at hD ⊢
    repeat' split at hD
    all_goals simp at hD
    all_goals rcases hR with hR | ⟨err, hR, hE⟩
    all_goals simp_all [Call.isWrite, List.countP_cons]
  · intro hid
    simp only [hid] at hD ⊢
    repeat' split at hD
    all_goals simp at hD
    all_goals rcases hR with hR | ⟨err, hR, hE⟩
    all_goals simp_all [Call.isWrite, List.countP_cons]

/-- Evaluation for C3 at a request whose `ExecutionID` is nil, on a cluster that does not
hold the object: `Delete` reports "not found" and `Abort` panics without any `Write`. -/
theorem abort_tolerated_delete_witness :
    Call.Delete 1 "p-d" "" { PropagationPolicy := some DeletionPropagation.Background }
        (some { Error := "not found", IsAlreadyExists := false, IsNotFound := true
                Code := none })
      ∈ (Abort (sampleExecutor plainConfig (Result.ok sampleWorkflow) (Result.ok cluster1))
        (storeRuntime none) { Namespace := "p-d", ExecutionID := none, Cluster := "cluster-1" }
        []).trace ∧
      (Abort (sampleExecutor plainConfig (Result.ok sampleWorkflow) (Result.ok cluster1))
        (storeRuntime none) { Namespace := "p-d", ExecutionID := none, Cluster := "cluster-1" }
        []).outcome = Outcome.panicked ∧
      (Abort (sampleExecutor plainConfig (Result.ok sampleWorkflow) (Result.ok cluster1))
        (storeRuntime none) { Namespace := "p-d", ExecutionID := none, Cluster := "cluster-1" }
        []).trace.countP Call.isWrite = 0 :=
  ⟨by decide,
    (abort_tolerated_delete
      (sampleExecutor plainConfig (Result.ok sampleWorkflow) (Result.ok cluster1))
      (storeRuntime none) { Namespace := "p-d", ExecutionID := none, Cluster := "cluster-1" }
      [] { TargetID := "cluster-1" } cluster1 1 "p-d" ""
      { PropagationPolicy := some DeletionPropagation.Background }
      (some { Error := "not found", IsAlreadyExists := false, IsNotFound := true
              Code := none })
      (by decide) (by decide) (Or.inr ⟨_, rfl, rfl⟩)).2 rfl⟩

/-- Counterexample to C4 as stated: with both offload flags off, a builder that returns an
object carrying a closure reference next to its inline workflow spec has that object
submitted unchanged, so "closure reference non-empty implies workflow spec nil" fails for
the submitted object. -/
theorem execute_mutual_exclusivity_counterexample :
    ¬ (∀ (client : ClientHandle) (ns : String) (wf : FlyteWorkflow) (res : Option GoError),
        Call.Create client ns wf res
          ∈ (Execute (sampleExecutor plainConfig (Result.ok staleReferenceWorkflow)
              (Result.ok cluster1)) (storeRuntime none) (sampleData (some sampleClosure))
              []).trace →
        closureExclusive wf ∧ inputsExclusive wf) := by
  intro h
  have h1 := (h 1 "p-d" staleReferenceWorkflow none (by decide)).1
  have h2 := h1 (by decide)
  simp [staleReferenceWorkflow] at h2

/-- C4 as amended (Mutual exclusivity after payload reduction): for the object `Execute`
passes to `Create`, "closure reference non-empty implies workflow spec, sub-workflows and
tasks nil" holds when closure offloading is on or the prepared object already satisfies it,
and "inputs reference non-empty implies inputs nil" holds when inputs offloading is on or
the prepared object already satisfies it. -/
theorem execute_mutual_exclusivity {σ : Type} (e : K8sWorkflowExecutor σ) (rt : Runtime σ)
    (data : ExecutionData) (w : σ) (closure : Option CompiledWorkflowClosure)
    (inputs : Option LiteralMap) (executionID : Option WorkflowExecutionIdentifier)
    (nsB : String) (built prepared : FlyteWorkflow) (client : ClientHandle) (ns : String)
    (wf : FlyteWorkflow) (res : Option GoError)
    (hB : Call.Build closure inputs executionID nsB (Result.ok built)
      ∈ (Execute e rt data w).trace)
    (hP : rt.PrepareFlyteWorkflow data built = Result.ok prepared)
    (hC : Call.Create client ns wf res ∈ (Execute e rt data w).trace) :
    ((e.config.UseOffloadedWorkflowClosure = true ∨ closureExclusive prepared) →
        closureExclusive wf) ∧
      ((e.config.UseOffloadedInputs = true ∨ inputsExclusive prepared) →
        inputsExclusive wf) := by
  have hwf := Execute_submits_reduced e rt data w closure inputs executionID nsB built
    prepared client ns wf res hB hP hC
  subst hwf
  constructor
  · rintro (hflag | hprep)
    · unfold closureExclusive reducePayload
      simp only [hflag]
      intro _
      split_ifs <;> simp
    · unfold closureExclusive reducePayload at *
      split_ifs <;> simp_all
  · rintro (hflag | hprep)
    · unfold inputsExclusive reducePayload
      simp only [hflag]
      intro _
      split_ifs <;> simp
    · unfold inputsExclusive reducePayload at *
      split_ifs <;> simp_all

/-- Witness for C4 as amended: with closure offloading on, the object submitted for p/d/e1
has its closure reference set and its workflow spec, sub-workflows and tasks nil. -/
theorem execute_mutual_exclusivity_witness :
    closureExclusive (reducePayload offloadConfig (sampleData (some sampleClosure))
      sampleWorkflow) ∧
    inputsExclusive (reducePayload offloadConfig (sampleData (some sampleClosure))
      sampleWorkflow) := by
  have h := execute_mutual_exclusivity
    (sampleExecutor offloadConfig (Result.ok sampleWorkflow) (Result.ok cluster1))
    (storeRuntime none) (sampleData (some sampleClosure)) [] (some sampleClosure) none
    (some sampleID) "p-d" sampleWorkflow sampleWorkflow 1 "p-d"
    (reducePayload offloadConfig (sampleData (some sampleClosure)) sampleWorkflow) none
    (by decide) rfl (by decide)
  refine ⟨h.1 (Or.inl rfl), h.2 (Or.inr ?_)⟩
  intro hne
  exact absurd rfl hne

/-- C5 (Fatal submission error): in a run of `Execute` where `GetTarget` resolved a cluster
and `Create` failed with an error that is not "already exists", `Execute` returns the empty
response together with an Internal-coded error whose message is
"failed to create workflow in propeller " followed by the text of the create error, and the
run contains exactly one `Create`. -/
theorem execute_create_failure_is_fatal {σ : Type} (e : K8sWorkflowExecutor σ)
    (rt : Runtime σ) (data : ExecutionData) (w : σ) (spec : ExecutionTargetSpec)
    (target : ExecutionTarget) (client : ClientHandle) (ns : String) (wf : FlyteWorkflow)
    (err : GoError)
    (_hT : Call.GetTarget spec (Result.ok target) ∈ (Execute e rt data w).trace)
    (hC : Call.Create client ns wf (some err) ∈ (Execute e rt data w).trace)
    (hE : err.IsAlreadyExists = false) :
    (∃ gerr : GoError,
        (Execute e rt data w).outcome = Outcome.returned ({ Cluster := "" }, some gerr) ∧
        gerr.Code = some codes.Internal ∧
        gerr.Error = "failed to create workflow in propeller " ++ err.Error) ∧
      (Execute e rt data w).trace.countP Call.isCreate = 1 := by
  unfold Execute at *
  dsimp only at *
  repeat' split at hC
  all_goals simp at hC
  all_goals simp_all [NewFlyteAdminErrorf, Call.isCreate, List.countP_cons]

/-- Witness for C5: submitting p/d/e1 while the cluster client answers "connection
refused". -/
theorem execute_create_failure_is_fatal_witness :
    (∃ gerr : GoError,
        (Execute (sampleExecutor plainConfig (Result.ok sampleWorkflow) (Result.ok cluster1))
          (storeRuntime (some errOther)) (sampleData (some sampleClosure)) []).outcome
          = Outcome.returned ({ Cluster := "" }, some gerr) ∧
        gerr.Code = some codes.Internal ∧
        gerr.Error = "failed to create workflow in propeller " ++ errOther.Error) ∧
      (Execute (sampleExecutor plainConfig (Result.ok sampleWorkflow) (Result.ok cluster1))
        (storeRuntime (some errOther)) (sampleData (some sampleClosure))
        []).trace.countP Call.isCreate = 1 :=
  execute_create_failure_is_fatal
    (sampleExecutor plainConfig (Result.ok sampleWorkflow) (Result.ok cluster1))
    (storeRuntime (some errOther)) (sampleData (some sampleClosure)) []
    (executionTargetSpec (sampleData (some sampleClosure)) sampleID) cluster1 1 "p-d"
    sampleWorkflow errOther (by decide) (by decide) (by decide)

/-- C6 (Routing separation): every run of `Abort` makes exactly one `GetTarget` call, on the
spec whose `TargetID` is the cluster id of the request and whose policy fields are all
empty; it issues `Delete` on the client of the target that call returned, and on no other
(none when the call failed). Hence two aborts with the same cluster id, whatever their
execution identifiers and namespaces, and with cluster interfaces that may route any other
spec differently but agree on that by-id lookup, delete on the same client. -/
theorem abort_routes_by_cluster_id {σ : Type} (e : K8sWorkflowExecutor σ) (rt : Runtime σ)
    (data : AbortData) (w : σ) :
    (Abort e rt data w).trace.filter Call.isGetTarget =
        [Call.GetTarget
          { TargetID := data.Cluster, ExecutionID := "", Project := "", Domain := ""
            Workflow := "", LaunchPlan := "", ExecutionClusterLabel := none }
          (e.executionCluster.GetTarget { TargetID := data.Cluster } w).1] ∧
      deleteClients (Abort e rt data w).trace =
        (match (e.executionCluster.GetTarget { TargetID := data.Cluster } w).1 with
          | Result.ok target => [target.FlyteClient]
          | Result.err _ => []) ∧
      ∀ (e2 : K8sWorkflowExecutor σ) (data2 : AbortData),
        data2.Cluster = data.Cluster →
        e2.executionCluster.GetTarget { TargetID := data.Cluster } w
          = e.executionCluster.GetTarget { TargetID := data.Cluster } w →
        deleteClients (Abort e2 rt data2 w).trace = deleteClients (Abort e rt data w).trace := by
  have key : ∀ (e1 : K8sWorkflowExecutor σ) (d : AbortData),
      deleteClients (Abort e1 rt d w).trace =
        (match (e1.executionCluster.GetTarget { TargetID := d.Cluster } w).1 with
          | Result.ok target => [target.FlyteClient]
          | Result.err _ => []) := by
    intro e1 d
    unfold Abort emitAborted
    dsimp only
    repeat' split
    all_goals simp_all [deleteClients, List.filterMap_cons]
  refine ⟨?_, key e data, ?_⟩
  · unfold Abort emitAborted
    dsimp only
    repeat' split
    all_goals simp_all [Call.isGetTarget, List.filter_cons]
  · intro e2 data2 hc hg
    rw [key e2 data2, key e data, hc, hg]

/-- C7 (Build failure): in a run of `Execute` whose `Build` returned the error `err`, neither
`GetTarget` nor `Create` is called. When the closure of the request has a primary workflow
with a template, `Execute` returns the empty response and exactly `err`. When the closure,
its primary workflow or the template is nil, the log argument
`data.WorkflowClosure.Primary.Template.Id` dereferences a nil pointer and `Execute` panics
instead of returning `err`. -/
theorem execute_build_failure {σ : Type} (e : K8sWorkflowExecutor σ) (rt : Runtime σ)
    (data : ExecutionData) (w : σ) (closure : Option CompiledWorkflowClosure)
    (inputs : Option LiteralMap) (executionID : Option WorkflowExecutionIdentifier)
    (ns : String) (err : GoError)
    (hB : Call.Build closure inputs executionID ns (Result.err err)
      ∈ (Execute e rt data w).trace) :
    ((∃ c p t, data.WorkflowClosure = some c ∧ c.Primary = some p ∧ p.Template = some t) →
        (Execute e rt data w).outcome = Outcome.returned ({ Cluster := "" }, some err)) ∧
      ((data.WorkflowClosure = none ∨
          (∃ c, data.WorkflowClosure = some c ∧ c.Primary = none) ∨
          (∃ c p, data.WorkflowClosure = some c ∧ c.Primary = some p ∧ p.Template = none)) →
        (Execute e rt data w).outcome = Outcome.panicked) ∧
      (Execute e rt data w).trace.countP Call.isGetTarget = 0 ∧
      (Execute e rt data w).trace.countP Call.isCreate = 0 := by
  have hb := Execute_build_call e rt data w closure inputs executionID ns _ hB
  unfold Execute
  simp only [hb]
  refine ⟨?_, ?_, ?_, ?_⟩
  · rintro ⟨c, p, t, hc, hp, ht⟩
    simp [buildFailureLogArg, hc, hp, ht]
  · rintro (hc | ⟨c, hc, hp⟩ | ⟨c, p, hc, hp, ht⟩)
    · simp [buildFailureLogArg, hc]
    · simp [buildFailureLogArg, hc, hp]
    · simp [buildFailureLogArg, hc, hp, ht]
  · split <;> simp [Call.isGetTarget]
  · split <;> simp [Call.isCreate]

/-- Evaluation for C7 at a closure with no primary workflow: the builder rejects it with
`errOther`, and `Execute` panics. -/
theorem execute_build_failure_witness :
    Call.Build (some { Primary := none }) none (some sampleID) "p-d" (Result.err errOther)
        ∈ (Execute (sampleExecutor plainConfig (Result.err errOther) (Result.ok cluster1))
          (storeRuntime none) (sampleData (some { Primary := none })) []).trace ∧
      (Execute (sampleExecutor plainConfig (Result.err errOther) (Result.ok cluster1))
        (storeRuntime none) (sampleData (some { Primary := none })) []).outcome
        = Outcome.panicked :=
  ⟨by decide,
    (execute_build_failure
      (sampleExecutor plainConfig (Result.err errOther) (Result.ok cluster1))
      (storeRuntime none) (sampleData (some { Primary := none })) []
      (some { Primary := none }) none (some sampleID) "p-d" errOther (by decide)).2.1
      (Or.inr (Or.inl ⟨{ Primary := none }, rfl, rfl⟩))⟩

/-- C8 (Unknown cluster on abort): in a run of `Abort` whose `GetTarget` failed, `Abort`
returns an Internal-coded error, and the failed `GetTarget` is the only call of the run: no
`Delete` is issued and nothing is written to the event writer. -/
theorem abort_unknown_cluster {σ : Type} (e : K8sWorkflowExecutor σ) (rt : Runtime σ)
    (data : AbortData) (w : σ) (spec : ExecutionTargetSpec) (err : GoError)
    (hT : Call.GetTarget spec (Result.err err) ∈ (Abort e rt data w).trace) :
    (∃ gerr : GoError, (Abort e rt data w).outcome = Outcome.returned (some gerr) ∧
        gerr.Code = some codes.Internal) ∧
      (Abort e rt data w).trace
        = [Call.GetTarget { TargetID := data.Cluster } (Result.err err)] ∧
      (Abort e rt data w).trace.countP Call.isDelete = 0 ∧
      (Abort e rt data w).trace.countP Call.isWrite = 0 := by
  unfold Abort emitAborted at *
  dsimp only at *
  repeat' split at hT
  all_goals simp at hT
  all_goals simp_all [NewFlyteAdminErrorf, Call.isDelete, Call.isWrite]

/-- Witness for C8: aborting on a cluster id the cluster interface does not know. -/
theorem abort_unknown_cluster_witness :
    (∃ gerr : GoError,
        (Abort (sampleExecutor plainConfig (Result.ok sampleWorkflow) (Result.err errOther))
          (storeRuntime none) sampleAbort ["e1"]).outcome = Outcome.returned (some gerr) ∧
        gerr.Code = some codes.Internal) ∧
      (Abort (sampleExecutor plainConfig (Result.ok sampleWorkflow) (Result.err errOther))
        (storeRuntime none) sampleAbort ["e1"]).trace
        = [Call.GetTarget { TargetID := sampleAbort.Cluster } (Result.err errOther)] ∧
      (Abort (sampleExecutor plainConfig (Result.ok sampleWorkflow) (Result.err errOther))
        (storeRuntime none) sampleAbort ["e1"]).trace.countP Call.isDelete = 0 ∧
      (Abort (sampleExecutor plainConfig (Result.ok sampleWorkflow) (Result.err errOther))
        (storeRuntime none) sampleAbort ["e1"]).trace.countP Call.isWrite = 0 :=
  abort_unknown_cluster
    (sampleExecutor plainConfig (Result.ok sampleWorkflow) (Result.err errOther))
    (storeRuntime none) sampleAbort ["e1"] { TargetID := "cluster-1" } errOther (by decide)

/-- C9 (Console URL injection): for every configuration (so for each combination of the
offload flags), every object the builder returns and `PrepareFlyteWorkflow` turns into
`prepared`, the object `Execute` passes to `Create` has the configured console URL when that
is non-empty, and the console URL of `prepared` when the configured one is empty. -/
theorem execute_console_url {σ : Type} (e : K8sWorkflowExecutor σ) (rt : Runtime σ)
    (data : ExecutionData) (w : σ) (closure : Option CompiledWorkflowClosure)
    (inputs : Option LiteralMap) (executionID : Option WorkflowExecutionIdentifier)
    (nsB : String) (built prepared : FlyteWorkflow) (client : ClientHandle) (ns : String)
    (wf : FlyteWorkflow) (res : Option GoError)
    (hB : Call.Build closure inputs executionID nsB (Result.ok built)
      ∈ (Execute e rt data w).trace)
    (hP : rt.PrepareFlyteWorkflow data built = Result.ok prepared)
    (hC : Call.Create client ns wf res ∈ (Execute e rt data w).trace) :
    (e.config.ConsoleURL ≠ "" → wf.ConsoleURL = e.config.ConsoleURL) ∧
      (e.config.ConsoleURL = "" → wf.ConsoleURL = prepared.ConsoleURL) := by
  have hwf := Execute_submits_reduced e rt data w closure inputs executionID nsB built
    prepared client ns wf res hB hP hC
  subst hwf
  constructor
  · intro hne
    have hpos := (length_pos_iff_ne_empty e.config.ConsoleURL).mpr hne
    simp [reducePayload, hpos]
  · intro hempty
    simp only [reducePayload, hempty]
    split_ifs <;> first | rfl | (exfalso; simp_all [String.length])

/-- Witness for C9: with closure offloading on and the console URL configured, the object
submitted for p/d/e1 carries the configured URL. -/
theorem execute_console_url_witness :
    Call.Create 1 "p-d" (reducePayload offloadConfig (sampleData (some sampleClosure))
        sampleWorkflow) none
      ∈ (Execute (sampleExecutor offloadConfig (Result.ok sampleWorkflow) (Result.ok cluster1))
        (storeRuntime none) (sampleData (some sampleClosure)) []).trace ∧
      (reducePayload offloadConfig (sampleData (some sampleClosure))
        sampleWorkflow).ConsoleURL = "https://console.example" :=
  ⟨by decide,
    (execute_console_url
      (sampleExecutor offloadConfig (Result.ok sampleWorkflow) (Result.ok cluster1))
      (storeRuntime none) (sampleData (some sampleClosure)) [] (some sampleClosure) none
      (some sampleID) "p-d" sampleWorkflow sampleWorkflow 1 "p-d"
      (reducePayload offloadConfig (sampleData (some sampleClosure)) sampleWorkflow) none
      (by decide) rfl (by decide)).1 (by decide)⟩

/-- C10 (Terminal event contents): whenever `Abort` returns nil, the request carries an
execution identifier and the run contains exactly one `Write`, whose event has the project,
domain and name of that identifier, phase ABORTED, producer "k8s_executor" and the error
result with code "ExecutionAborted" and message "Execution aborted"; besides the identifier
only the time stamp varies. -/
theorem abort_event_contents {σ : Type} (e : K8sWorkflowExecutor σ) (rt : Runtime σ)
    (data : AbortData) (w : σ)
    (hNil : (Abort e rt data w).outcome = Outcome.returned none) :
    ∃ (executionID : WorkflowExecutionIdentifier) (now : Timestamp),
      data.ExecutionID = some executionID ∧
      (Abort e rt data w).trace.filter Call.isWrite =
        [Call.Write
          { Event := some
              { ExecutionId := some
                  { Project := executionID.Project
                    Domain := executionID.Domain
                    Name := executionID.Name }
                ProducerId := "k8s_executor"
                Phase := WorkflowExecution_Phase.ABORTED
                OccurredAt := some now
                OutputResult := some (OutputResult.Error
                  { Code := "ExecutionAborted", Message := "Execution aborted" }) } }] := by
  unfold Abort emitAborted at *
  dsimp only at *
  repeat' split at hNil
  all_goals simp at hNil
  all_goals simp_all [Call.isWrite, abortEventRequest, List.filter_cons]

/-- Witness for C10: aborting p/d/e1 on `cluster-1`, which holds `e1`. -/
theorem abort_event_contents_witness :
    (Abort (sampleExecutor plainConfig (Result.ok sampleWorkflow) (Result.ok cluster1))
        (storeRuntime none) sampleAbort ["e1"]).outcome = Outcome.returned none ∧
      ∃ (executionID : WorkflowExecutionIdentifier) (now : Timestamp),
        sampleAbort.ExecutionID = some executionID ∧
        (Abort (sampleExecutor plainConfig (Result.ok sampleWorkflow) (Result.ok cluster1))
          (storeRuntime none) sampleAbort ["e1"]).trace.filter Call.isWrite =
          [Call.Write
            { Event := some
                { ExecutionId := some
                    { Project := executionID.Project
                      Domain := executionID.Domain
                      Name := executionID.Name }
                  ProducerId := "k8s_executor"
                  Phase := WorkflowExecution_Phase.ABORTED
                  OccurredAt := some now
                  OutputResult := some (OutputResult.Error
                    { Code := "ExecutionAborted", Message := "Execution aborted" }) } }] :=
  ⟨by decide,
    abort_event_contents
      (sampleExecutor plainConfig (Result.ok sampleWorkflow) (Result.ok cluster1))
      (storeRuntime none) sampleAbort ["e1"] (by decide)⟩

end K8sExecutor
